import Mathlib

/-!
Verification of the per-session chat and model-download manager of app.py.

Python functions are shallowly embedded as Lean functions.  Strings are
modelled as List Char wherever character-level reasoning is needed; thread
side effects become explicit state passing; the external chat RPC is an
oracle argument of type Except String String; the decimal numbers parsed
out of progress lines are kept exactly, as a digit value with a decimal
scale, and the percentage is the floor of the exact ratio (every concrete
numeral used in a theorem below is exactly representable in binary
floating point, so this agrees with the float arithmetic of the source).
-/

/-- ASCII whitespace, as stripped by the str.strip() calls of app.py. -/
def spaceChar (c : Char) : Bool :=
  c == ' ' || c == '\t' || c == '\n' || c == '\r' || c == '\x0b' || c == '\x0c'

/-- The single character class used by str.strip of an asterisk. -/
def starChar (c : Char) : Bool := c == '*'

/-- The regex word class for the ASCII progress lines emitted by ollama. -/
def wordChar (c : Char) : Bool := c.isAlphanum || c == '_'

/-- The regex class of digits and dots used by the byte-ratio pattern. -/
def digitDot (c : Char) : Bool := c.isDigit || c == '.'

/-- Remove leading and trailing characters satisfying p (Python str.strip). -/
def stripChars (p : Char → Bool) (s : List Char) : List Char :=
  ((s.dropWhile p).reverse.dropWhile p).reverse

/-- Python str.strip() with no argument: strip whitespace from both ends. -/
def pyStrip (s : List Char) : List Char := stripChars spaceChar s

/-- str.strip() at the String level. -/
def pyStripS (s : String) : String := String.mk (pyStrip s.data)

/-- Python str.lower() on the ASCII lines handled here. -/
def toLowerL (s : List Char) : List Char := s.map Char.toLower

/-- The first argument is a leading segment of the second. -/
def leadsWith : List Char → List Char → Bool
  | [], _ => true
  | _ :: _, [] => false
  | a :: as, b :: bs => a == b && leadsWith as bs

/-- Python substring membership, needle in hay. -/
def inStr (needle : List Char) : List Char → Bool
  | [] => needle.isEmpty
  | c :: rest => leadsWith needle (c :: rest) || inStr needle rest

/-- Value of a nonempty run of decimal digits. -/
def digitsToNat (ds : List Char) : Nat :=
  ds.foldl (fun n c => n * 10 + (c.toNat - 48)) 0

/-- A decimal numeral parsed from a progress line, kept exactly: its value
is digits divided by ten to the scale. -/
structure DecNum where
  digits : Nat
  scale : Nat
deriving DecidableEq

/-- Python float() restricted to the strings produced by the digit-dot
regex class: digits, optionally one dot, at least one digit overall.
Returns none exactly when float() would raise ValueError. -/
def pyFloat (cs : List Char) : Option DecNum :=
  let ip := cs.takeWhile Char.isDigit
  let rest := cs.dropWhile Char.isDigit
  match rest with
  | [] => if ip.isEmpty then none else some ⟨digitsToNat ip, 0⟩
  | '.' :: fp =>
      if fp.all Char.isDigit && (!ip.isEmpty || !fp.isEmpty) then
        some ⟨digitsToNat ip * 10 ^ fp.length + digitsToNat fp, fp.length⟩
      else none
  | _ => none

/-- Python int of current divided by total, times one hundred: the floor
of the exact nonnegative ratio, computed over naturals. -/
def ratioPercent (current total : DecNum) : Nat :=
  current.digits * 10 ^ total.scale * 100 / (total.digits * 10 ^ current.scale)

/-- Association-list lookup modelling Python dict access. -/
def lookup {α : Type} : List (String × α) → String → Option α
  | [], _ => none
  | (k, v) :: rest, key => if k = key then some v else lookup rest key

/-- Python dict assignment: overwrite in place, else append. -/
def setEntry {α : Type} : List (String × α) → String → α → List (String × α)
  | [], key, v => [(key, v)]
  | (k, w) :: rest, key, v =>
      if k = key then (key, v) :: rest else (k, w) :: setEntry rest key v

/-- One element of a regular expression: a literal, or a greedy
one-or-more character-class repetition, possibly a capture group. -/
inductive Pelem
| lit (s : List Char)
| plus (p : Char → Bool) (cap : Bool)

/-- Backtracking matcher for a sequence of pattern elements anchored at the
start of the input; returns the list of captured groups on success.  The
one-or-more repetition is greedy and backtracks from the longest run, as in
the Python re module. -/
def matchSeq : List Pelem → List Char → Option (List (List Char))
  | [], _ => some []
  | Pelem.lit s :: rest, cs =>
      if leadsWith s cs then matchSeq rest (cs.drop s.length) else none
  | Pelem.plus p cap :: rest, cs =>
      ((List.range (cs.takeWhile p).length).map
          (fun i => (cs.takeWhile p).length - i)).findSome?
        (fun n => (matchSeq rest (cs.drop n)).map
          (fun gs => if cap then cs.take n :: gs else gs))

/-- re.search: try the anchored match at each start position, left to
right. -/
def reSearch (ps : List Pelem) : List Char → Option (List (List Char))
  | [] => matchSeq ps []
  | c :: cs =>
      match matchSeq ps (c :: cs) with
      | some gs => some gs
      | none => reSearch ps cs

/-- The byte-ratio progress pattern of execute_ollama_pull, line 263. -/
def pat1 : List Pelem :=
  [Pelem.lit ("pulling".data), Pelem.plus spaceChar false, Pelem.plus wordChar false,
   Pelem.lit ("...".data), Pelem.plus spaceChar false, Pelem.plus digitDot true,
   Pelem.plus wordChar false, Pelem.lit ("/".data), Pelem.plus digitDot true,
   Pelem.plus wordChar false]

/-- The bare-percentage pattern of execute_ollama_pull, line 277. -/
def pat2 : List Pelem := [Pelem.plus Char.isDigit true, Pelem.lit ("%".data)]

/-- re.search for pattern 1, returning the two captured groups. -/
def searchPat1 (line : List Char) : Option (List Char × List Char) :=
  match reSearch pat1 line with
  | some (g1 :: g2 :: _) => some (g1, g2)
  | _ => none

/-- re.search for pattern 2, returning the captured digit group. -/
def searchPat2 (line : List Char) : Option (List Char) :=
  match reSearch pat2 line with
  | some (g :: _) => some g
  | _ => none

/-- The status strings stored in a download_progress entry. -/
inductive DStatus
| downloading
| completed
| error
deriving DecidableEq

/-- The human-readable message of a job entry, represented by which update
of execute_ollama_pull produced it together with its parameters. -/
inductive DMessage
| initMsg
| connecting
| bytes (current total : DecNum)
| percentMsg (p : Nat)
| manifestMsg
| configMsg
| verifyingMsg
| successMsg
| exitFail (code : Int)
deriving DecidableEq

/-- One download_progress[session_id] record. -/
structure DownloadJob where
  status : DStatus
  model : String
  progress : Nat
  message : DMessage
  startedAt : Int
deriving DecidableEq

/-- The record written at the top of execute_ollama_pull, lines 191-197. -/
def initJob (m : String) (t0 : Int) : DownloadJob :=
  { status := DStatus.downloading, model := m, progress := 0,
    message := DMessage.initMsg, startedAt := t0 }

/-- The update at lines 243-246 after the process is spawned. -/
def connectJob (st : DownloadJob) : DownloadJob :=
  { st with progress := 5, message := DMessage.connecting }

/-- Pattern 3 of the parser, lines 287-308: keyword matching on the
lowercased line; only its last arm may set the status to completed. -/
def phase3 (st : DownloadJob) (low : List Char) : DownloadJob :=
  if inStr ("pulling manifest".data) low then
    { st with progress := 10, message := DMessage.manifestMsg }
  else if inStr ("pulling".data) low && inStr ("config".data) low then
    { st with progress := 15, message := DMessage.configMsg }
  else if inStr ("verifying".data) low then
    { st with progress := 90, message := DMessage.verifyingMsg }
  else if inStr ("success".data) low || inStr ("complete".data) low then
    { st with status := DStatus.completed, progress := 100,
              message := DMessage.successMsg }
  else st

/-- Patterns 2 then 3, reached when pattern 1 did not set the
progress_updated flag (lines 276-308). -/
def phase23 (st : DownloadJob) (line : List Char) : DownloadJob :=
  match searchPat2 line with
  | some g =>
      { st with progress := min (digitsToNat g) 95,
                message := DMessage.percentMsg (digitsToNat g) }
  | none => phase3 st (toLowerL line)

/-- Pattern 1 matched: convert both groups with float(); a conversion
failure raises and the read loop breaks (modelled as none); a zero total
leaves the flag unset so patterns 2 and 3 still run (lines 264-273). -/
def bytesBranch (st : DownloadJob) (line g1 g2 : List Char) : Option DownloadJob :=
  match pyFloat g1 with
  | none => none
  | some current =>
      match pyFloat g2 with
      | none => none
      | some total =>
          if 0 < total.digits then
            some { st with
              progress := min (ratioPercent current total) 95,
              message := DMessage.bytes current total }
          else some (phase23 st line)

/-- Processing of one output line of the pull process, lines 255-308:
strip the line, then run the three ordered patterns, first match wins. -/
def processLine (st : DownloadJob) (raw : List Char) : Option DownloadJob :=
  match searchPat1 (pyStrip raw) with
  | some (g1, g2) => bytesBranch st (pyStrip raw) g1 g2
  | none => some (phase23 st (pyStrip raw))

/-- The final status update from the process exit code, lines 317-341. -/
def finishExit (st : DownloadJob) (code : Int) : DownloadJob :=
  if code = 0 then
    { st with status := DStatus.completed, progress := 100,
              message := DMessage.successMsg }
  else
    { st with status := DStatus.error, progress := 0,
              message := DMessage.exitFail code }

/-- Run the read loop over a list of observed lines, recording the job
state after each processed line; a parse exception breaks the loop. -/
def stepLines (st : DownloadJob) : List (List Char) → DownloadJob × List DownloadJob
  | [] => (st, [])
  | l :: ls =>
      match processLine st l with
      | none => (st, [])
      | some st2 =>
          let r := stepLines st2 ls
          (r.1, st2 :: r.2)

/-- The two module-level tables download_progress and download_threads;
a thread entry carries the result of is_alive at observation time. -/
structure DownloadTable where
  progress : List (String × DownloadJob)
  threads : List (String × Bool)
deriving DecidableEq

/-- The synchronous outcomes of the download_model endpoint. -/
inductive StartOutcome
| emptyName
| conflict
| ollamaBroken
| ollamaMissing
| started (method : String)
deriving DecidableEq

/-- The success flag of the JSON reply of download_model. -/
def isSuccess : StartOutcome → Bool
  | StartOutcome.started _ => true
  | _ => false

/-- The strict-mode model name pattern of the spec (the check at lines
1105-1106 of app.py, which is commented out). -/
def validModelChar (c : Char) : Bool :=
  c.isAlpha || c.isDigit || c == '.' || c == '_' || c == ':' || c == '-'

def validModelName (s : String) : Bool :=
  !s.data.isEmpty && s.data.all validModelChar

/-- The download_model endpoint, lines 1090-1150.  ok models the ollama
version probe: some true for exit 0, some false for a nonzero exit, none
for a raised exception.  The commented-out character-set validation is
faithfully absent. -/
def download_model (tbl : DownloadTable) (sid name method : String)
    (ok : Option Bool) : StartOutcome × DownloadTable :=
  if pyStripS name = "" then (StartOutcome.emptyName, tbl)
  else if (lookup tbl.threads sid).getD false then (StartOutcome.conflict, tbl)
  else
    match ok with
    | some true =>
        (StartOutcome.started method,
          { tbl with threads := setEntry tbl.threads sid true })
    | some false => (StartOutcome.ollamaBroken, tbl)
    | none => (StartOutcome.ollamaMissing, tbl)

/-- One transcript message. -/
structure Message where
  role : String
  content : String
deriving DecidableEq

/-- One character preset of characters.json. -/
structure CharData where
  name : String
  role : String
  system_prompt : String
  image_caption_prompt : String
  user_profile : Option String
deriving DecidableEq

/-- One CharacterChat instance: the per-session conversation state. -/
structure CharacterChat where
  characters : List (String × CharData)
  messages : List Message
  current_character : Option CharData
  selected_chat_model : String
  selected_image_model : String
deriving DecidableEq

/-- The typed errors raised by the conversation engine. -/
inductive ChatError
| notFound (key : String)
deriving DecidableEq

/-- The user-profile clause appended at lines 481-482 when the preset has
a user_profile field. -/
def profileClause : Option String → String
  | some up => "\nImportant: The user should be treated as follows: " ++ up
  | none => ""

/-- CharacterChat.set_character, lines 472-485: the ValueError is raised
before any mutation, so the state is returned unchanged on failure. -/
def set_character (chat : CharacterChat) (key : String) :
    Except ChatError String × CharacterChat :=
  match lookup chat.characters key with
  | none => (Except.error (ChatError.notFound key), chat)
  | some cd =>
      (Except.ok cd.name,
        { chat with
          current_character := some cd,
          messages :=
            [⟨"system", cd.system_prompt ++ profileClause cd.user_profile⟩] })

/-- re.match of the action regex (anchored asterisk, any non-newline
characters, trailing asterisk) on an already-stripped input. -/
def regexActionMatch : List Char → Bool
  | [] => false
  | c :: rest =>
      c == '*' && !rest.isEmpty && rest.getLast? == some '*'
        && rest.dropLast.all (fun ch => ch != '\n')

/-- The input formatting at the top of CharacterChat.ask, lines 501-505:
the regex runs on the whitespace-stripped input, while the asterisks are
stripped from the raw input. -/
def formatUserInput (user_input : List Char) : List Char :=
  if regexActionMatch (pyStrip user_input) then
    ("(The user performs an action: ".data) ++ stripChars starChar user_input
      ++ (")".data)
  else user_input

/-- CharacterChat.ask, lines 499-512, with the chat RPC as an oracle:
the user turn is appended first; on RPC failure it stays appended and the
exception propagates, so no assistant turn is added. -/
def ask (chat : CharacterChat) (user_input : String)
    (rpc : Except String String) : CharacterChat × Except String String :=
  match rpc with
  | Except.ok answer =>
      ({ chat with messages := chat.messages
          ++ [⟨"user", String.mk (formatUserInput user_input.data)⟩,
              ⟨"assistant", answer⟩] },
        Except.ok answer)
  | Except.error e =>
      ({ chat with messages := chat.messages
          ++ [⟨"user", String.mk (formatUserInput user_input.data)⟩] },
        Except.error e)

/-- The outcomes of the send_message endpoint. -/
inductive SendResult
| emptyMsg
| noCharacter
| okResp (resp : String)
| failed (err : String)
deriving DecidableEq

/-- The send_message endpoint, lines 653-678: empty-message check first,
then the no-character check, then CharacterChat.ask on the stripped
message. -/
def send_message (chat : CharacterChat) (message : String)
    (rpc : Except String String) : SendResult × CharacterChat :=
  if pyStripS message = "" then (SendResult.emptyMsg, chat)
  else
    match chat.current_character with
    | none => (SendResult.noCharacter, chat)
    | some _ =>
        match ask chat (pyStripS message) rpc with
        | (chat1, Except.ok ans) => (SendResult.okResp ans, chat1)
        | (chat1, Except.error e) => (SendResult.failed e, chat1)

/-- CharacterChat.reset_conversation, lines 535-541: the system message is
rebuilt from system_prompt alone, without the user-profile clause. -/
def reset_conversation (chat : CharacterChat) : CharacterChat :=
  match chat.current_character with
  | some cd => { chat with messages := [⟨"system", cd.system_prompt⟩] }
  | none => { chat with messages := [] }

/-- get_chat_session, lines 550-558: fresh is the CharacterChat() that
would be constructed if the session id is absent. -/
def get_chat_session (sessions : List (String × CharacterChat)) (sid : String)
    (fresh : CharacterChat) : List (String × CharacterChat) × CharacterChat :=
  match lookup sessions sid with
  | some chat => (sessions, chat)
  | none => (sessions ++ [(sid, fresh)], fresh)

/-- The outcomes of the api_delete_character endpoint. -/
inductive DeleteOutcome
| keyRequired
| protectedKey
| notFound (key : String)
| deleted (name : String)
deriving DecidableEq

/-- The protected default keys, line 925. -/
def default_character_keys : List String :=
  ["assistant", "creative_writer", "code_helper", "researcher"]

/-- api_delete_character, lines 915-952, acting on the shared registry. -/
def api_delete_character (registry : List (String × CharData)) (key : String) :
    DeleteOutcome × List (String × CharData) :=
  if pyStripS key = "" then (DeleteOutcome.keyRequired, registry)
  else if pyStripS key ∈ default_character_keys then
    (DeleteOutcome.protectedKey, registry)
  else
    match lookup registry (pyStripS key) with
    | none => (DeleteOutcome.notFound (pyStripS key), registry)
    | some cd =>
        (DeleteOutcome.deleted cd.name,
          registry.filter (fun p => p.1 != pyStripS key))

/-- Example preset with a user profile, for concrete witnesses. -/
def exChar : CharData :=
  { name := "Test", role := "Tester", system_prompt := "You are Test.",
    image_caption_prompt := "Describe.", user_profile := some ("UP") }

/-- Example session whose registry holds exChar under the key test. -/
def exChat : CharacterChat :=
  { characters := [(("test"), exChar)], messages := [],
    current_character := none, selected_chat_model := "m",
    selected_image_model := "v" }

/-- Example session with no active character, for concrete witnesses. -/
def exChatNone : CharacterChat :=
  { characters := [], messages := [], current_character := none,
    selected_chat_model := "m", selected_image_model := "v" }

theorem lookup_setEntry {α : Type} (l : List (String × α)) (key : String) (v : α) :
    lookup (setEntry l key v) key = some v := by
  induction l with
  | nil => simp [setEntry, lookup]
  | cons p rest ih =>
      obtain ⟨k, w⟩ := p
      by_cases h : k = key
      · simp [setEntry, lookup, h]
      · simp [setEntry, lookup, h, ih]

theorem lookup_append_absent {α : Type} (l : List (String × α)) (key : String)
    (v : α) (h : lookup l key = none) : lookup (l ++ [(key, v)]) key = some v := by
  induction l with
  | nil => simp [lookup]
  | cons p rest ih =>
      obtain ⟨k, w⟩ := p
      by_cases hk : k = key
      · simp [lookup, hk] at h
      · simp only [List.cons_append, lookup, if_neg hk] at h ⊢
        exact ih h

theorem leadsWith_append_self (n r : List Char) : leadsWith n (n ++ r) = true := by
  induction n with
  | nil => rfl
  | cons a as ih => simp [leadsWith, ih]

theorem inStr_self_append (n r : List Char) : inStr n (n ++ r) = true := by
  cases n with
  | nil =>
      cases r with
      | nil => rfl
      | cons c cs => simp [inStr, leadsWith]
  | cons a as => simp [inStr, leadsWith, leadsWith_append_self]

theorem inStr_append_left (n g h : List Char) (hh : inStr n h = true) :
    inStr n (g ++ h) = true := by
  induction g with
  | nil => simpa using hh
  | cons c cs ih => simp [inStr, ih]

theorem stripChars_keep (p : Char → Bool) (a b : Char) (l : List Char)
    (ha : p a = false) (hb : p b = false) :
    stripChars p (a :: l ++ [b]) = a :: l ++ [b] := by
  simp [stripChars, List.dropWhile_cons, ha, hb, List.reverse_append]

theorem stripStars_wrapped (t : List Char) (h1 : t ≠ [])
    (h2 : t.head? ≠ some '*') (h3 : t.getLast? ≠ some '*') :
    stripChars starChar ('*' :: t ++ ['*']) = t := by
  obtain ⟨a, t2, rfl⟩ := List.exists_cons_of_ne_nil h1
  have ha : a ≠ '*' := by
    intro h
    exact h2 (by simp [h])
  rcases List.eq_nil_or_concat t2 with rfl | ⟨ys, y, rfl⟩
  · simp [stripChars, List.dropWhile_cons, starChar, ha]
  · simp only [List.concat_eq_append] at h3 ⊢
    have hy : y ≠ '*' := by
      intro h
      apply h3
      rw [show a :: (ys ++ [y]) = (a :: ys) ++ [y] by simp, List.getLast?_concat, h]
    simp [stripChars, List.dropWhile_cons, starChar, ha, hy, List.reverse_append]

theorem regexActionMatch_wrapped (t : List Char)
    (h4 : t.all (fun ch => ch != '\n') = true) :
    regexActionMatch ('*' :: t ++ ['*']) = true := by
  have hne : (t ++ ['*']).isEmpty = false := by
    cases t <;> rfl
  simp [regexActionMatch, hne, List.getLast?_concat, List.dropLast_concat, h4]

theorem formatUserInput_wrapped (t : List Char) (h1 : t ≠ [])
    (h2 : t.head? ≠ some '*') (h3 : t.getLast? ≠ some '*')
    (h4 : t.all (fun ch => ch != '\n') = true) :
    formatUserInput ('*' :: t ++ ['*'])
      = ("(The user performs an action: ".data) ++ t ++ (")".data) := by
  have hstrip : pyStrip ('*' :: t ++ ['*']) = '*' :: t ++ ['*'] :=
    stripChars_keep spaceChar '*' '*' t (by decide) (by decide)
  unfold formatUserInput
  rw [hstrip, regexActionMatch_wrapped t h4, stripStars_wrapped t h1 h2 h3]
  simp

theorem ask_user_turn (chat : CharacterChat) (input : String)
    (rpc : Except String String) :
    ((ask chat input rpc).1.messages.drop chat.messages.length).head?
      = some ⟨"user", String.mk (formatUserInput input.data)⟩ := by
  cases rpc with
  | ok answer =>
      show ((chat.messages ++ [(⟨"user", String.mk (formatUserInput input.data)⟩ : Message),
          ⟨"assistant", answer⟩]).drop chat.messages.length).head?
        = some ⟨"user", String.mk (formatUserInput input.data)⟩
      rw [List.drop_left]
      rfl
  | error e =>
      show ((chat.messages
            ++ [(⟨"user", String.mk (formatUserInput input.data)⟩ : Message)]).drop
          chat.messages.length).head?
        = some ⟨"user", String.mk (formatUserInput input.data)⟩
      rw [List.drop_left]
      rfl

theorem phase3_status (st : DownloadJob) (low : List Char)
    (h : (phase3 st low).status = DStatus.completed) :
    st.status = DStatus.completed
    ∨ inStr ("success".data) low = true ∨ inStr ("complete".data) low = true := by
  unfold phase3 at h
  split at h
  · exact Or.inl h
  · split at h
    · exact Or.inl h
    · split at h
      · exact Or.inl h
      · split at h
        · next hc =>
            simp only [Bool.or_eq_true] at hc
            exact Or.inr hc
        · exact Or.inl h

theorem phase23_status (st : DownloadJob) (line : List Char)
    (h : (phase23 st line).status = DStatus.completed) :
    st.status = DStatus.completed
    ∨ inStr ("success".data) (toLowerL line) = true
    ∨ inStr ("complete".data) (toLowerL line) = true := by
  unfold phase23 at h
  cases hs : searchPat2 line with
  | some g =>
      simp only [hs] at h
      exact Or.inl h
  | none =>
      simp only [hs] at h
      exact phase3_status st (toLowerL line) h

theorem bytesBranch_status (st : DownloadJob) (line g1 g2 : List Char)
    (stB : DownloadJob) (h : bytesBranch st line g1 g2 = some stB)
    (hs : stB.status = DStatus.completed) :
    st.status = DStatus.completed
    ∨ inStr ("success".data) (toLowerL line) = true
    ∨ inStr ("complete".data) (toLowerL line) = true := by
  unfold bytesBranch at h
  cases hf1 : pyFloat g1 with
  | none =>
      simp only [hf1] at h
      exact Option.noConfusion h
  | some current =>
      simp only [hf1] at h
      cases hf2 : pyFloat g2 with
      | none =>
          simp only [hf2] at h
          exact Option.noConfusion h
      | some total =>
          simp only [hf2] at h
          by_cases ht : 0 < total.digits
          · rw [if_pos ht] at h
            obtain rfl := Option.some.inj h
            exact Or.inl hs
          · rw [if_neg ht] at h
            have h2 := Option.some.inj h
            exact phase23_status st line (by rw [h2]; exact hs)

theorem processLine_status (st : DownloadJob) (raw : List Char)
    (stB : DownloadJob) (h : processLine st raw = some stB)
    (hs : stB.status = DStatus.completed) :
    st.status = DStatus.completed
    ∨ inStr ("success".data) (toLowerL (pyStrip raw)) = true
    ∨ inStr ("complete".data) (toLowerL (pyStrip raw)) = true := by
  unfold processLine at h
  cases hp : searchPat1 (pyStrip raw) with
  | none =>
      simp only [hp] at h
      have h2 := Option.some.inj h
      exact phase23_status st (pyStrip raw) (by rw [h2]; exact hs)
  | some gg =>
      obtain ⟨g1, g2⟩ := gg
      simp only [hp] at h
      exact bytesBranch_status st (pyStrip raw) g1 g2 stB h hs

/-- C1 (counterexample): the monotonicity half of the claim is false on the
code: with the job downloading, a bare-percentage line of 45 followed by
one of 25 makes the recorded progress drop from 45 to 25 while the status
stays downloading, because each recognized line overwrites the progress
with its own parsed value. -/
theorem c1_counterexample :
    ((stepLines (connectJob (initJob ("m") 0)) [("45%".data), ("25%".data)]).2.map
        (fun j => j.progress) = [45, 25])
  ∧ ((stepLines (connectJob (initJob ("m") 0)) [("45%".data), ("25%".data)]).2.map
        (fun j => j.status) = [DStatus.downloading, DStatus.downloading])
  ∧ (25 : Nat) < 45 := by
  refine ⟨by decide, by decide, by decide⟩

/-- C1 (amended): processing an output line never sets the status to
completed unless the lowercased stripped line contains a success or
complete keyword (byte-ratio and bare-percentage lines cap progress at 95
and leave the status alone), and the exit-code step sets completed exactly
for exit code 0; the monotonicity half of the original claim does not hold. -/
theorem c1_amended (st stB : DownloadJob) (l : List Char) (code : Int)
    (hproc : processLine st l = some stB)
    (hnc : st.status ≠ DStatus.completed)
    (hcomp : stB.status = DStatus.completed) :
    (inStr ("success".data) (toLowerL (pyStrip l)) = true
      ∨ inStr ("complete".data) (toLowerL (pyStrip l)) = true)
  ∧ ((finishExit st code).status = DStatus.completed ↔ code = 0) := by
  constructor
  · rcases processLine_status st l stB hproc hcomp with h | h | h
    · exact absurd h hnc
    · exact Or.inl h
    · exact Or.inr h
  · unfold finishExit
    by_cases hc : code = 0
    · simp [hc]
    · simp [hc]

/-- C1 (witness): the amended theorem applied to the line success observed
by a freshly started job, and to exit code 0. -/
theorem c1_amended_witness :
    (inStr ("success".data) (toLowerL (pyStrip ("success".data))) = true
      ∨ inStr ("complete".data) (toLowerL (pyStrip ("success".data))) = true)
  ∧ ((finishExit (initJob ("m") 0) 0).status = DStatus.completed ↔ (0 : Int) = 0) :=
  c1_amended (initJob ("m") 0)
    { status := DStatus.completed, model := "m", progress := 100,
      message := DMessage.successMsg, startedAt := 0 }
    ("success".data) 0 (by decide) (by decide) (by decide)

/-- C2: when the session has a live download thread, download_model
returns the conflict failure with success false and leaves both tables,
hence the recorded job state, unchanged: no second task is tracked. -/
theorem c2 (tbl : DownloadTable) (sid name method : String) (ok : Option Bool)
    (h : lookup tbl.threads sid = some true) (hname : pyStripS name ≠ "") :
    (download_model tbl sid name method ok).1 = StartOutcome.conflict
  ∧ isSuccess (download_model tbl sid name method ok).1 = false
  ∧ (download_model tbl sid name method ok).2 = tbl := by
  have e : download_model tbl sid name method ok = (StartOutcome.conflict, tbl) := by
    unfold download_model
    rw [if_neg hname]
    simp [h]
  rw [e]
  exact ⟨rfl, rfl, rfl⟩

/-- C2 (witness): a session with a live thread and a recorded job. -/
theorem c2_witness :
    (download_model ⟨[(("s"), initJob ("x") 0)], [(("s"), true)]⟩ ("s")
        ("llama3.2:3b") ("cli") (some true)).1 = StartOutcome.conflict
  ∧ isSuccess (download_model ⟨[(("s"), initJob ("x") 0)], [(("s"), true)]⟩ ("s")
        ("llama3.2:3b") ("cli") (some true)).1 = false
  ∧ (download_model ⟨[(("s"), initJob ("x") 0)], [(("s"), true)]⟩ ("s")
        ("llama3.2:3b") ("cli") (some true)).2
      = ⟨[(("s"), initJob ("x") 0)], [(("s"), true)]⟩ :=
  c2 ⟨[(("s"), initJob ("x") 0)], [(("s"), true)]⟩ ("s") ("llama3.2:3b") ("cli")
    (some true) (by decide) (by decide)

/-- C3: the example scenario: after starting a job for llama3.2:3b, the
lines pulling manifest, pulling config..., and the 50.0MB/100.0MB byte
line record progress 10, 15, 50, and exit code 0 then records 100 with
final status completed. -/
theorem c3 :
    ((stepLines (connectJob (initJob ("llama3.2:3b") 0))
        [("pulling manifest".data), ("pulling config...".data),
         ("pulling abc123... 50.0MB/100.0MB".data)]).2.map
        (fun j => j.progress) = [10, 15, 50])
  ∧ ((finishExit (stepLines (connectJob (initJob ("llama3.2:3b") 0))
        [("pulling manifest".data), ("pulling config...".data),
         ("pulling abc123... 50.0MB/100.0MB".data)]).1 0).progress = 100)
  ∧ ((finishExit (stepLines (connectJob (initJob ("llama3.2:3b") 0))
        [("pulling manifest".data), ("pulling config...".data),
         ("pulling abc123... 50.0MB/100.0MB".data)]).1 0).status
      = DStatus.completed) := by
  refine ⟨by decide, by decide, by decide⟩

/-- C4 (counterexample): the claim is false on the code: the charset check
is commented out, so the malformed name bad name (it contains a space) is
accepted and a background task is tracked for the session. -/
theorem c4_counterexample :
    validModelName ("bad name") = false
  ∧ (download_model ⟨[], []⟩ ("s") ("bad name") ("cli") (some true)).1
      = StartOutcome.started ("cli")
  ∧ (download_model ⟨[], []⟩ ("s") ("bad name") ("cli") (some true)).2.threads
      = [(("s"), true)] := by
  refine ⟨by decide, by decide, by decide⟩

/-- C4 (amended): the restricted-charset validation is disabled in the
code; any request whose model name is non-empty after stripping proceeds
past validation, and when no download is live for the session and the
ollama probe succeeds, a background task is launched and tracked exactly
as for a well-formed name. -/
theorem c4_amended (tbl : DownloadTable) (sid name method : String)
    (hmal : validModelName name = false) (hne : pyStripS name ≠ "")
    (hlive : lookup tbl.threads sid ≠ some true) :
    (download_model tbl sid name method (some true)).1
      = StartOutcome.started method
  ∧ lookup (download_model tbl sid name method (some true)).2.threads sid
      = some true := by
  have hgd : (lookup tbl.threads sid).getD false = false := by
    cases hl : lookup tbl.threads sid with
    | none => rfl
    | some b =>
        cases b with
        | false => rfl
        | true => exact absurd hl hlive
  have e : download_model tbl sid name method (some true)
      = (StartOutcome.started method,
          { tbl with threads := setEntry tbl.threads sid true }) := by
    unfold download_model
    rw [if_neg hne]
    simp [hgd]
  rw [e]
  exact ⟨rfl, lookup_setEntry tbl.threads sid true⟩

/-- C4 (witness): the amended theorem at a malformed concrete name. -/
theorem c4_amended_witness :
    (download_model ⟨[], []⟩ ("s") ("bad/name") ("cli") (some true)).1
      = StartOutcome.started ("cli")
  ∧ lookup (download_model ⟨[], []⟩ ("s") ("bad/name") ("cli")
        (some true)).2.threads ("s") = some true :=
  c4_amended ⟨[], []⟩ ("s") ("bad/name") ("cli") (by decide) (by decide)
    (by decide)

/-- C5: set_character fails with NotFound and leaves the state unchanged
when the key is absent, and otherwise resets the transcript to exactly one
system message whose content is the preset system prompt extended with the
user-profile clause when the preset has one. -/
theorem c5 (chat : CharacterChat) (key : String) :
    (lookup chat.characters key = none →
        set_character chat key = (Except.error (ChatError.notFound key), chat))
  ∧ (∀ cd : CharData, lookup chat.characters key = some cd →
        (set_character chat key).2.messages.length = 1
      ∧ (set_character chat key).2.messages
          = [⟨"system", cd.system_prompt ++ profileClause cd.user_profile⟩]) := by
  constructor
  · intro h
    unfold set_character
    rw [h]
  · intro cd h
    unfold set_character
    rw [h]
    exact ⟨rfl, rfl⟩

/-- C5 (witness): both branches at a concrete registry holding exChar. -/
theorem c5_witness :
    set_character exChat ("zzz") = (Except.error (ChatError.notFound ("zzz")), exChat)
  ∧ ((set_character exChat ("test")).2.messages.length = 1
      ∧ (set_character exChat ("test")).2.messages
          = [⟨"system", exChar.system_prompt ++ profileClause exChar.user_profile⟩]) :=
  ⟨(c5 exChat ("zzz")).1 (by decide), (c5 exChat ("test")).2 exChar (by decide)⟩

/-- C6: an input wrapped in a single leading and trailing asterisk is
appended as a user turn reading the user performs an action with the inner
text, which therefore contains the phrase performs an action and the inner
text; any input rejected by the action regex is appended verbatim. -/
theorem c6 (chat : CharacterChat) (rpc : Except String String) (t : List Char)
    (s2 : String) (h1 : t ≠ []) (h2 : t.head? ≠ some '*')
    (h3 : t.getLast? ≠ some '*') (h4 : t.all (fun ch => ch != '\n') = true)
    (h5 : regexActionMatch (pyStrip s2.data) = false) :
    (((ask chat (String.mk ('*' :: t ++ ['*'])) rpc).1.messages.drop
        chat.messages.length).head?
      = some ⟨"user", String.mk (("(The user performs an action: ".data) ++ t
          ++ (")".data))⟩)
  ∧ inStr ("performs an action".data)
      (("(The user performs an action: ".data) ++ t ++ (")".data)) = true
  ∧ inStr t (("(The user performs an action: ".data) ++ t ++ (")".data)) = true
  ∧ (((ask chat s2 rpc).1.messages.drop chat.messages.length).head?
      = some ⟨"user", s2⟩) := by
  have hfmt := formatUserInput_wrapped t h1 h2 h3 h4
  refine ⟨?_, ?_, ?_, ?_⟩
  · rw [ask_user_turn]
    show some (⟨"user", String.mk (formatUserInput ('*' :: t ++ ['*']))⟩ : Message) = _
    rw [hfmt]
  · have hsplit : ("(The user performs an action: ".data)
        = ("(The user ".data) ++ ("performs an action".data) ++ (": ".data) := by
      decide
    rw [hsplit]
    simp only [List.append_assoc]
    exact inStr_append_left _ _ _ (inStr_self_append _ _)
  · simp only [List.append_assoc]
    exact inStr_append_left _ _ _ (inStr_self_append _ _)
  · have hfm2 : formatUserInput s2.data = s2.data := by
      unfold formatUserInput
      rw [h5]
      simp
    rw [ask_user_turn]
    rw [hfm2]

/-- C6 (witness): the action input waves hello wrapped in asterisks and
the verbatim input hello, on a session with an empty transcript. -/
theorem c6_witness :
    (((ask exChatNone (String.mk ('*' :: ("waves hello".data) ++ ['*']))
        (Except.ok ("ok"))).1.messages.drop exChatNone.messages.length).head?
      = some ⟨"user", String.mk (("(The user performs an action: ".data)
          ++ ("waves hello".data) ++ (")".data))⟩)
  ∧ inStr ("performs an action".data)
      (("(The user performs an action: ".data) ++ ("waves hello".data)
        ++ (")".data)) = true
  ∧ inStr ("waves hello".data)
      (("(The user performs an action: ".data) ++ ("waves hello".data)
        ++ (")".data)) = true
  ∧ (((ask exChatNone ("hello") (Except.ok ("ok"))).1.messages.drop
        exChatNone.messages.length).head? = some ⟨"user", "hello"⟩) :=
  c6 exChatNone (Except.ok ("ok")) ("waves hello".data) ("hello") (by decide)
    (by decide) (by decide) (by decide) (by decide)

/-- C7 (counterexample): the claim is false as stated: on a session with
no active character, sending an empty message fails with the empty-message
error rather than the no-character error (the empty-message check runs
first); the transcript is still unchanged. -/
theorem c7_counterexample :
    exChatNone.current_character = none
  ∧ (send_message exChatNone ("") (Except.ok ("hi"))).1 = SendResult.emptyMsg
  ∧ SendResult.emptyMsg ≠ SendResult.noCharacter
  ∧ (send_message exChatNone ("") (Except.ok ("hi"))).2 = exChatNone := by
  refine ⟨rfl, rfl, by decide, rfl⟩

/-- C7 (amended): on a session with no active character, send_message with
a message that is non-empty after stripping always fails with the
no-character error and leaves the session state, hence the transcript,
unchanged; an empty message is instead rejected first by the empty-message
check, also without mutating the transcript. -/
theorem c7_amended (chat : CharacterChat) (message : String)
    (rpc : Except String String) (hc : chat.current_character = none)
    (hm : pyStripS message ≠ "") :
    (send_message chat message rpc).1 = SendResult.noCharacter
  ∧ (send_message chat message rpc).2 = chat := by
  have e : send_message chat message rpc = (SendResult.noCharacter, chat) := by
    unfold send_message
    rw [if_neg hm, hc]
  rw [e]
  exact ⟨rfl, rfl⟩

/-- C7 (witness): the amended theorem at a concrete characterless session. -/
theorem c7_amended_witness :
    (send_message exChatNone ("hello") (Except.ok ("r"))).1 = SendResult.noCharacter
  ∧ (send_message exChatNone ("hello") (Except.ok ("r"))).2 = exChatNone :=
  c7_amended exChatNone ("hello") (Except.ok ("r")) (by decide) (by decide)

/-- C8: deleting any of the four protected default character keys fails
with the protected outcome and returns the registry unchanged, so no entry
is removed and nothing is rewritten. -/
theorem c8 (registry : List (String × CharData)) (key : String)
    (h : key ∈ default_character_keys) :
    api_delete_character registry key = (DeleteOutcome.protectedKey, registry) := by
  fin_cases h <;> rfl

/-- C8 (witness): deleting assistant from an empty registry. -/
theorem c8_witness :
    api_delete_character [] ("assistant") = (DeleteOutcome.protectedKey, []) :=
  c8 [] ("assistant") (by decide)

/-- C9: get_chat_session is idempotent: a second call with the same
session id returns exactly the table and state produced by the first call,
so the same transcript is returned and no duplicate session is created. -/
theorem c9 (sessions : List (String × CharacterChat)) (sid : String)
    (f1 f2 : CharacterChat) :
    get_chat_session (get_chat_session sessions sid f1).1 sid f2
      = get_chat_session sessions sid f1 := by
  cases h : lookup sessions sid with
  | some c =>
      have e : get_chat_session sessions sid f1 = (sessions, c) := by
        unfold get_chat_session
        rw [h]
      rw [e]
      unfold get_chat_session
      rw [h]
  | none =>
      have e : get_chat_session sessions sid f1 = (sessions ++ [(sid, f1)], f1) := by
        unfold get_chat_session
        rw [h]
      rw [e]
      unfold get_chat_session
      rw [lookup_append_absent sessions sid f1 h]

/-- C10: after selecting a preset that has a user profile, reset rebuilds
the transcript as a single system message holding the system prompt alone,
dropping the user-profile clause that set_character had appended (so the
transcript differs from the one set_character produced); with no active
character, reset empties the transcript. -/
theorem c10 (chat c2 : CharacterChat) (key : String) (cd : CharData)
    (up : String) (hk : lookup chat.characters key = some cd)
    (hu : cd.user_profile = some up) (hc : c2.current_character = none) :
    (reset_conversation (set_character chat key).2).messages
        = [⟨"system", cd.system_prompt⟩]
  ∧ (reset_conversation (set_character chat key).2).messages
      ≠ (set_character chat key).2.messages
  ∧ (reset_conversation c2).messages = [] := by
  have hset : (set_character chat key).2
      = { chat with
          current_character := some cd,
          messages :=
            [⟨"system", cd.system_prompt ++ profileClause cd.user_profile⟩] } := by
    unfold set_character
    rw [hk]
  refine ⟨?_, ?_, ?_⟩
  · rw [hset]
    rfl
  · rw [hset]
    simp only [reset_conversation]
    intro heq
    simp only [List.cons.injEq, Message.mk.injEq, and_true, true_and] at heq
    have hlen := congrArg String.length heq
    rw [String.length_append] at hlen
    have hpos : 0 < (profileClause cd.user_profile).length := by
      rw [hu]
      simp only [profileClause, String.length_append]
      have : 0 < ("\nImportant: The user should be treated as follows: ").length := by
        decide
      omega
    omega
  · simp [reset_conversation, hc]

/-- C10 (witness): the theorem at the concrete preset exChar, whose user
profile is present, and at a concrete characterless session. -/
theorem c10_witness :
    (reset_conversation (set_character exChat ("test")).2).messages
        = [⟨"system", exChar.system_prompt⟩]
  ∧ (reset_conversation (set_character exChat ("test")).2).messages
      ≠ (set_character exChat ("test")).2.messages
  ∧ (reset_conversation exChatNone).messages = [] :=
  c10 exChat exChatNone ("test") exChar ("UP") (by decide) (by decide) (by decide)
